import Mathlib

/-!
Verification development for the moltworker Cloudflare Worker.

The worker (src/index.ts and the API routes module) proxies requests to a
Clawdbot gateway running in a sandbox container, backs up its state to an R2
mount on a cron trigger, and exposes storage/sync/restart API endpoints.
This file gives a shallow embedding of those handlers and proves the
specified properties about them.

Conventions of the embedding:
* TypeScript values that may be `undefined` are `Option _`; the JavaScript
  truthiness test on an optional string (`!x` is true for `undefined` and
  for the empty string) is `tsTruthy`.
* Operations on the sandbox that may reject (throw) are modelled as
  `Except String _` values supplied by a "world" record; `try/catch` blocks
  in the source become explicit matches on those values.
* A polled process is a function `Nat → PStatus` giving the status observed
  at each successive poll, plus the status and exit code observed after the
  polling loop has finished.
-/

namespace Moltworker

/-- JavaScript truthiness of an optional string: `undefined` and the empty
string are falsy, every other string is truthy. -/
def tsTruthy : Option String → Bool
  | none => false
  | some s => !(s == "")

/-- Embedding of JavaScript `String.prototype.includes`: `strIncludes s pat`
is true when `pat` occurs as a contiguous substring of `s`. -/
def strIncludes (s pat : String) : Bool :=
  decide (pat.toList <:+: s.toList)

/-- Embedding of JavaScript `String.prototype.toLowerCase` (ASCII range,
which is all the handler compares against): lower-case every character. -/
def jsToLower (s : String) : String :=
  ⟨s.data.map Char.toLower⟩

/-- Status of a sandbox process as polled by the worker. -/
inductive PStatus
  | pending
  | running
  | completed
  | failed
deriving DecidableEq, Repr

/-- Captured output of a sandbox process (`proc.getLogs()`); the empty string
stands for absent/`undefined` output, matching its JavaScript falsiness. -/
structure Logs where
  stdout : String
  stderr : String
deriving DecidableEq, Repr

/-- View of a spawned process: the status observed at each poll of the wait
loop, and the status and exit code observed once the loop has exited. -/
structure ProcView where
  statusAt : Nat → PStatus
  finalStatus : PStatus
  exitCode : Option Int

/-! ## Gateway catch-all handler (src/index.ts, `app.all('*')`)

The handler first awaits `ensureClawdbotGateway`; on failure it classifies
the error and answers 503 with a structured JSON body; on success it proxies
the request, as a WebSocket relay when the lowercased `Upgrade` header equals
`websocket` and as a plain HTTP fetch otherwise. -/

/-- Fixed gateway port. `config.ts` is not part of the provided sources; the
CLI invocations in the API routes connect to `ws://localhost:18789`, which
pins the value. -/
def CLAWDBOT_PORT : Nat := 18789

/-- Environment fields read by the catch-all proxy handler. -/
structure GatewayEnv where
  anthropicApiKey : Option String

/-- Outcome of awaiting `ensureClawdbotGateway`: success, or a thrown value
carrying `some msg` when it was an `Error` and `none` otherwise (the handler
then uses the fixed text `Unknown error`). -/
inductive EnsureOutcome
  | ok
  | thrown (msg : Option String)

/-- Response produced by the catch-all handler. -/
inductive ProxyResponse
  | json503 (error details hint : String)
  | wsConnect (port : Nat)
  | containerFetch (port : Nat)
deriving DecidableEq, Repr

/-- Hint selection of the catch-all handler: default hint, overridden by the
missing-credential hint when `ANTHROPIC_API_KEY` is falsy, else by the
out-of-memory hint when the error message matches an OOM pattern. -/
def classifyHint (env : GatewayEnv) (errorMessage : String) : String :=
  if !(tsTruthy env.anthropicApiKey) then
    "ANTHROPIC_API_KEY is not set. Run: wrangler secret put ANTHROPIC_API_KEY"
  else if strIncludes errorMessage "heap out of memory" || strIncludes errorMessage "OOM" then
    "Gateway ran out of memory. Try again or check for memory leaks."
  else
    "Check worker logs with: wrangler tail"

/-- The catch-all handler, after the sandbox middleware: given the outcome of
`ensureClawdbotGateway` and the request Upgrade header, produce the response. -/
def handleAll (env : GatewayEnv) (upgradeHeader : Option String)
    (outcome : EnsureOutcome) : ProxyResponse :=
  match outcome with
  | .thrown msg =>
      let errorMessage := msg.getD "Unknown error"
      .json503 "Clawdbot gateway failed to start" errorMessage (classifyHint env errorMessage)
  | .ok =>
      if upgradeHeader.map jsToLower == some "websocket" then
        .wsConnect CLAWDBOT_PORT
      else
        .containerFetch CLAWDBOT_PORT

/-! ## Polling loops

The scheduled handler waits with
`while (proc.status === 'running' && attempts < 60) { sleep(500); attempts++ }`;
`waitForProcess` in the API routes waits with
`while (attempts < maxAttempts) { sleep(500); if (status !== 'running') break; attempts++ }`
where `maxAttempts = Math.ceil(timeoutMs / 500)`. Both are embedded as
fuel-bounded recursions returning the number of 500 ms sleeps performed. -/

/-- CLI poll interval in milliseconds (`CLI_POLL_INTERVAL_MS`). -/
def CLI_POLL_INTERVAL_MS : Nat := 500

/-- Default CLI wait budget in milliseconds (`CLI_TIMEOUT_MS`). -/
def CLI_TIMEOUT_MS : Nat := 20000

/-- Sleep count of the scheduled handler's wait loop: the condition
`status == running && attempts < fuel` is tested before each sleep; `i` is
the index of the next status poll. -/
def cronPollAux (statusAt : Nat → PStatus) : Nat → Nat → Nat
  | 0, _ => 0
  | fuel + 1, i =>
      if statusAt i = .running then cronPollAux statusAt fuel (i + 1) + 1 else 0

/-- Number of 500 ms sleeps performed by the scheduled handler's wait loop
(bounded by 60 attempts, i.e. 30 seconds). -/
def cronPollCount (statusAt : Nat → PStatus) : Nat :=
  cronPollAux statusAt 60 0

/-- Sleep count of one `waitForProcess` loop body sequence: each iteration
first sleeps, then breaks when the status is no longer `running`, else
consumes one attempt. -/
def waitForProcessAux (statusAt : Nat → PStatus) : Nat → Nat → Nat
  | 0, _ => 0
  | fuel + 1, i =>
      if statusAt i = .running then waitForProcessAux statusAt fuel (i + 1) + 1 else 1

/-- Attempt bound of `waitForProcess`: `Math.ceil(timeoutMs / 500)`. -/
def waitForProcessMaxAttempts (timeoutMs : Nat) : Nat :=
  (timeoutMs + (CLI_POLL_INTERVAL_MS - 1)) / CLI_POLL_INTERVAL_MS

/-- Number of 500 ms sleeps performed by `waitForProcess` with budget
`timeoutMs`. -/
def waitForProcessCount (statusAt : Nat → PStatus) (timeoutMs : Nat) : Nat :=
  waitForProcessAux statusAt (waitForProcessMaxAttempts timeoutMs) 0

/-! ## The backup sync command

Both the scheduled handler (src/index.ts) and the manual sync endpoint build
the same shell command: an rsync mirror of `/root/.clawdbot/` onto the mount
followed, via `&&`, by writing `date -Iseconds` output to the `.last-sync`
marker. The command string is embedded verbatim (parameterised over the
`R2_MOUNT_PATH` constant, whose defining module is not among the provided
sources), together with a small shell-command syntax and semantics relating
the string to its effect. -/

/-- The sync command string built by the scheduled cron handler. -/
def syncCmdIndex (mountPath : String) : String :=
  "rsync -a --delete --exclude=\x27*.lock\x27 --exclude=\x27*.log\x27 --exclude=\x27*.tmp\x27 /root/.clawdbot/ "
    ++ mountPath ++ "/ && date -Iseconds > " ++ mountPath ++ "/.last-sync"

/-- The sync command string built by the manual sync endpoint. -/
def syncCmdApp (mountPath : String) : String :=
  "rsync -a --delete --exclude=\x27*.lock\x27 --exclude=\x27*.log\x27 --exclude=\x27*.tmp\x27 /root/.clawdbot/ "
    ++ mountPath ++ "/ && date -Iseconds > " ++ mountPath ++ "/.last-sync"

/-- Abstract syntax of the shell commands the sync job issues: an rsync
invocation, an ISO-8601 timestamp written to a file (`date -Iseconds > f`),
and `&&` sequencing. -/
inductive ShCmd
  | rsyncCmd (archive deleteRemote : Bool) (excludes : List String) (src dst : String)
  | writeIsoTimestamp (target : String)
  | andThen (a b : ShCmd)
deriving DecidableEq, Repr

/-- Rendering of the shell AST back to the command string. -/
def renderSh : ShCmd → String
  | .rsyncCmd archive deleteRemote excludes src dst =>
      "rsync" ++ (if archive then " -a" else "")
        ++ (if deleteRemote then " --delete" else "")
        ++ String.join (excludes.map fun e => " --exclude=\x27" ++ e ++ "\x27")
        ++ " " ++ src ++ " " ++ dst
  | .writeIsoTimestamp target => "date -Iseconds > " ++ target
  | .andThen a b => renderSh a ++ " && " ++ renderSh b

/-- The AST of the sync command: mirror (archive, delete) of
`/root/.clawdbot/` onto the mount excluding lock, log and tmp files, then
write the timestamp marker. -/
def syncCmdAst (mountPath : String) : ShCmd :=
  .andThen
    (.rsyncCmd true true ["*.lock", "*.log", "*.tmp"] "/root/.clawdbot/" (mountPath ++ "/"))
    (.writeIsoTimestamp (mountPath ++ "/.last-sync"))

/-- Observable effects of running a sync command. -/
structure SyncEffects where
  mirrorRan : Bool
  markerWrites : List String
deriving DecidableEq, Repr

/-- Shell semantics for the fragment used by the sync job: running a command
returns updated effects and an exit code; `a && b` runs `b` exactly when `a`
exited 0; the rsync step exits with the ambient `rsyncExit`; a timestamp
write always succeeds and records its target. -/
def runSh (rsyncExit : Int) : ShCmd → SyncEffects → SyncEffects × Int
  | .rsyncCmd _ _ _ _ _, fx => ({ fx with mirrorRan := true }, rsyncExit)
  | .writeIsoTimestamp target, fx =>
      ({ fx with markerWrites := fx.markerWrites ++ [target] }, 0)
  | .andThen a b, fx =>
      let (fx1, code1) := runSh rsyncExit a fx
      if code1 = 0 then runSh rsyncExit b fx1 else (fx1, code1)

/-! ## R2 credentials and the scheduled backup handler (src/index.ts) -/

/-- Environment fields gating the storage features. -/
structure R2Env where
  r2AccessKeyId : Option String
  r2SecretAccessKey : Option String
  cfAccountId : Option String

/-- All three R2 credentials are truthy, as tested by
`!env.R2_ACCESS_KEY_ID || !env.R2_SECRET_ACCESS_KEY || !env.CF_ACCOUNT_ID`. -/
def credsPresent (env : R2Env) : Bool :=
  tsTruthy env.r2AccessKeyId && tsTruthy env.r2SecretAccessKey && tsTruthy env.cfAccountId

/-- Side effects the scheduled handler can perform on the sandbox. -/
inductive CronAct
  | callMount
  | spawnSync
  | sleep500
  | killProc
deriving DecidableEq, Repr

/-- Terminal outcome of one scheduled-handler run (all are logged, none is
thrown to the trigger). -/
inductive CronOutcome
  | skippedNoCreds
  | skippedMountFailed
  | syncSucceeded
  | syncFailed (details : String)
  | caughtError (msg : String)
deriving DecidableEq, Repr

/-- World supplying the results of the sandbox operations the scheduled
handler awaits: `mountR2Storage` (which never rejects, returning a boolean),
`startProcess` and `getLogs` (which may reject). -/
structure CronWorld where
  mountResult : Bool
  startResult : Except String ProcView
  logsResult : Except String Logs

/-- Body of the `try` block of the scheduled handler; a `.error` value is a
rejection escaping the block, paired with the actions performed before it. -/
def cronTryBody (w : CronWorld) : Except (List CronAct × String) (List CronAct × CronOutcome) :=
  match w.startResult with
  | .error msg => .error ([.spawnSync], msg)
  | .ok proc =>
      let acts := CronAct.spawnSync ::
        List.replicate (cronPollCount proc.statusAt) CronAct.sleep500
      match w.logsResult with
      | .error msg => .error (acts, msg)
      | .ok logs =>
          if proc.finalStatus == PStatus.completed || proc.exitCode == some 0 then
            .ok (acts, .syncSucceeded)
          else
            .ok (acts, .syncFailed (if logs.stderr == "" then logs.stdout else logs.stderr))

/-- The scheduled handler: skip without mounting when a credential is falsy,
skip after a failed mount, otherwise run the sync attempt with its `catch`
absorbing any rejection. The result is `Except` so that "the trigger always
observes normal completion" is the statement that the result is always
`.ok`. -/
def scheduledRun (env : R2Env) (w : CronWorld) :
    Except String (List CronAct × CronOutcome) :=
  if !(credsPresent env) then .ok ([], .skippedNoCreds)
  else if !w.mountResult then .ok ([.callMount], .skippedMountFailed)
  else
    match cronTryBody w with
    | .ok (acts, outcome) => .ok (CronAct.callMount :: acts, outcome)
    | .error (acts, msg) => .ok (CronAct.callMount :: acts, .caughtError msg)

/-! ## Storage status endpoint (GET /api/storage) -/

/-- World for the storage-status endpoint: the ignored `mountR2Storage`
result and the outcome of reading the `.last-sync` marker (the `cat`
process's stdout, `none` for `undefined`), which may reject. -/
structure StorageWorld where
  mountResult : Bool
  catResult : Except String (Option String)

/-- JSON body answered by the storage-status endpoint. -/
structure StorageResp where
  configured : Bool
  missing : Option (List String)
  lastSync : Option String
  message : String
deriving DecidableEq, Repr

/-- Credential names reported missing, in the order the handler checks them. -/
def missingCreds (env : R2Env) : List String :=
  (if !(tsTruthy env.r2AccessKeyId) then ["R2_ACCESS_KEY_ID"] else [])
    ++ (if !(tsTruthy env.r2SecretAccessKey) then ["R2_SECRET_ACCESS_KEY"] else [])
    ++ (if !(tsTruthy env.cfAccountId) then ["CF_ACCOUNT_ID"] else [])

/-- The storage-status handler: reports whether all three credentials are
present, the missing field names (omitted when none), and the trimmed marker
timestamp when configured and readable, with every read error swallowed. -/
def storageStatus (env : R2Env) (w : StorageWorld) : StorageResp :=
  let hasCredentials := credsPresent env
  let missing := missingCreds env
  let lastSync : Option String :=
    if hasCredentials then
      match w.catResult with
      | .error _ => none
      | .ok stdout =>
          match stdout with
          | none => none
          | some s => if s.trim == "" then none else some s.trim
    else none
  { configured := hasCredentials
    missing := if missing.length > 0 then some missing else none
    lastSync := lastSync
    message :=
      if hasCredentials then
        "R2 storage is configured. Your data will persist across container restarts."
      else
        "R2 storage is not configured. Paired devices and conversations will be lost when the container restarts." }

/-! ## Manual sync endpoint (POST /api/storage/sync) -/

/-- World for the manual sync endpoint; here the `mountR2Storage` call sits
inside the `try`, as do the sync process, its logs, and the marker re-read. -/
structure ManualSyncWorld where
  mountResult : Except String Bool
  startResult : Except String ProcView
  logsResult : Except String Logs
  tsReadResult : Except String (Option String)
  now : String

/-- Response of the manual sync endpoint. -/
inductive SyncResp
  | notConfigured
  | mountFailed
  | syncFailed (details : String)
  | caughtError (msg : String)
  | syncOk (lastSync : String)
deriving DecidableEq, Repr

/-- HTTP status carried by each manual-sync response. -/
def syncRespStatus : SyncResp → Nat
  | .notConfigured => 400
  | .syncOk _ => 200
  | _ => 500

/-- The manual sync handler: 400 without credentials; 500 when the mount
returns false; run the sync command, and on `completed` status or exit code 0
re-read the marker and answer its trimmed contents (falling back to the
current time when falsy), else 500 with the captured logs; rejections are
answered as 500 with the message. -/
def storageSyncPost (env : R2Env) (w : ManualSyncWorld) : SyncResp :=
  if !(credsPresent env) then .notConfigured
  else
    match w.mountResult with
    | .error msg => .caughtError msg
    | .ok mounted =>
        if !mounted then .mountFailed
        else
          match w.startResult with
          | .error msg => .caughtError msg
          | .ok proc =>
              match w.logsResult with
              | .error msg => .caughtError msg
              | .ok logs =>
                  if proc.finalStatus == PStatus.completed || proc.exitCode == some 0 then
                    match w.tsReadResult with
                    | .error msg => .caughtError msg
                    | .ok stdout =>
                        let lastSync :=
                          match stdout with
                          | none => w.now
                          | some s => if s.trim == "" then w.now else s.trim
                        .syncOk lastSync
                  else
                    .syncFailed (if logs.stderr == "" then logs.stdout else logs.stderr)

/-! ## Gateway restart endpoint (POST /api/gateway/restart) -/

/-- Handle to an existing sandbox process, as returned by
`findExistingClawdbotProcess`. -/
structure ProcHandle where
  id : String
deriving DecidableEq, Repr

/-- World for the restart endpoint: the existing-process lookup result and
the outcome of the `kill()` call on it (whose rejection is caught and only
logged). -/
structure RestartWorld where
  existing : Option ProcHandle
  killResult : Except String Unit

/-- Actions the restart handler performs, in order. -/
inductive RestartAct
  | findProc
  | killAttempt (id : String)
  | logKillError (msg : String)
  | sleepMs (n : Nat)
  | startGatewayBackground
deriving DecidableEq, Repr

/-- JSON body answered by the restart endpoint (status 200). -/
structure RestartResp where
  success : Bool
  message : String
  previousProcessId : Option String
deriving DecidableEq, Repr

/-- The restart handler: look up the existing gateway process; when found,
attempt to kill it (swallowing a kill failure) and wait 2000 ms; then start a
new gateway in the background (`executionCtx.waitUntil`) and answer at once.
The `bootOutcome` argument is the eventual outcome of the background
`ensureClawdbotGateway` call; the handler never inspects it. -/
def gatewayRestart (w : RestartWorld) (bootOutcome : EnsureOutcome) :
    List RestartAct × RestartResp :=
  let _ := bootOutcome
  match w.existing with
  | some p =>
      let killActs : List RestartAct :=
        match w.killResult with
        | .ok _ => [.killAttempt p.id]
        | .error msg => [.killAttempt p.id, .logKillError msg]
      (RestartAct.findProc :: (killActs ++ [.sleepMs 2000, .startGatewayBackground]),
       { success := true
         message := "Gateway process killed, new instance starting..."
         previousProcessId := some p.id })
  | none =>
      ([.findProc, .startGatewayBackground],
       { success := true
         message := "No existing process found, starting new instance..."
         previousProcessId := none })

/-! ## Single-flight gateway startup

The module defining `ensureClawdbotGateway` (src/gateway.ts) is not among
the provided sources; only its callers are. Its concurrency discipline is
therefore modelled from the spec. -/

/-- Modelled from the spec: the in-memory single-flight registry of
`ensureClawdbotGateway` (src/gateway.ts is missing from the sources). The
state for one sandbox logical name holds the pending attempt token (shared
by late arrivals, cleared on resolution), a fresh-attempt counter, and the
number of spawns performed. -/
structure SFState where
  inflight : Option Nat
  nextId : Nat
  spawns : Nat
deriving DecidableEq, Repr

/-- Initial single-flight state: no gateway running, no attempt in flight. -/
def sfInit : SFState := { inflight := none, nextId := 0, spawns := 0 }

/-- Modelled from the spec: one caller entering `ensureReady` while no
gateway is running. If an attempt is in flight the caller attaches to it;
otherwise the caller spawns, registering a fresh attempt token. Returns the
attempt whose outcome the caller will observe. -/
def ensureReadyArrive (st : SFState) : SFState × Nat :=
  match st.inflight with
  | some a => (st, a)
  | none =>
      ({ inflight := some st.nextId, nextId := st.nextId + 1, spawns := st.spawns + 1 },
       st.nextId)

/-- `n` callers arriving one after another (each check-and-set is atomic in
the event-driven runtime), all before the in-flight attempt resolves.
Returns the final state and the attempt each caller awaits. -/
def ensureReadyArriveMany (st : SFState) : Nat → SFState × List Nat
  | 0 => (st, [])
  | n + 1 =>
      let (st1, a) := ensureReadyArrive st
      let (st2, rest) := ensureReadyArriveMany st1 n
      (st2, a :: rest)

/-! ## Storage mount manager

`mountR2Storage` also lives in src/gateway.ts, which is not among the
provided sources; it is modelled from the spec. -/

/-- Whether the fixed mount path currently behaves as mounted. -/
structure MountState where
  mounted : Bool
deriving DecidableEq, Repr

/-- Whether the mount command, when issued, succeeds; with valid (working)
credentials it does. -/
structure MountWorld where
  cmdSucceeds : Bool
deriving DecidableEq, Repr

/-- Modelled from the spec: `mountR2Storage` (src/gateway.ts is missing from
the sources). It first probes whether the fixed mount path already behaves
as mounted and, if so, returns `true` without re-issuing the mount command;
a missing credential short-circuits to `false`; otherwise it issues the
mount command once, returning its success and never throwing. The result
also carries the new mount state and the number of mount commands issued. -/
def mountR2Storage (env : R2Env) (w : MountWorld) (st : MountState) :
    Bool × MountState × Nat :=
  if st.mounted then (true, st, 0)
  else if !(credsPresent env) then (false, st, 0)
  else if w.cmdSucceeds then (true, { mounted := true }, 1)
  else (false, st, 1)

/-- Two consecutive `mountR2Storage` calls: results of each call and the
total number of mount commands issued. -/
def mountR2StorageTwice (env : R2Env) (w : MountWorld) (st : MountState) :
    Bool × Bool × Nat :=
  let (r1, st1, c1) := mountR2Storage env w st
  let (r2, _, c2) := mountR2Storage env w st1
  (r1, r2, c1 + c2)

/-- Actions performed by a scheduled-handler run (empty for a rejection,
which `scheduledRun` never produces). -/
def cronActsOf : Except String (List CronAct × CronOutcome) → List CronAct
  | .ok (acts, _) => acts
  | .error _ => []

/-! ## Helper lemmas -/

/-- Left-merging direction of string-append associativity, used to merge
adjacent literal segments after right-normalisation. -/
theorem strMergeL (a b x : String) : a ++ (b ++ x) = (a ++ b) ++ x :=
  (String.append_assoc a b x).symm

/-- The scheduled wait loop performs at most `fuel` sleeps. -/
theorem cronPollAux_le (statusAt : Nat → PStatus) :
    ∀ fuel i, cronPollAux statusAt fuel i ≤ fuel := by
  intro fuel
  induction fuel with
  | zero => intro i; simp [cronPollAux]
  | succ m ih =>
      intro i
      unfold cronPollAux
      split
      · have := ih (i + 1)
        omega
      · omega

/-- The `waitForProcess` loop performs at most `fuel` sleeps. -/
theorem waitForProcessAux_le (statusAt : Nat → PStatus) :
    ∀ fuel i, waitForProcessAux statusAt fuel i ≤ fuel := by
  intro fuel
  induction fuel with
  | zero => intro i; simp [waitForProcessAux]
  | succ m ih =>
      intro i
      unfold waitForProcessAux
      split
      · have := ih (i + 1)
        omega
      · omega

/-- Arrivals while an attempt is pending leave the state unchanged and all
attach to the pending attempt. -/
theorem ensureReadyArriveMany_pending (a : Nat) (st : SFState)
    (hst : st.inflight = some a) :
    ∀ n, ensureReadyArriveMany st n = (st, List.replicate n a) := by
  intro n
  induction n with
  | zero => simp [ensureReadyArriveMany]
  | succ m ih =>
      simp [ensureReadyArriveMany, ensureReadyArrive, hst, ih, List.replicate_succ]

/-! ## Claim theorems -/

/-- C1: for all N concurrent `ensureReady` calls against the same sandbox
while no gateway is running, exactly one spawn occurs and all N callers
attach to the same in-flight attempt, hence resolve to the same
success/failure outcome. -/
theorem ensureReady_single_flight (n : Nat) (h : 0 < n) (outcome : Nat → Bool) :
    (ensureReadyArriveMany sfInit n).1.spawns = 1 ∧
    ∃ o : Bool, ∀ a ∈ (ensureReadyArriveMany sfInit n).2, outcome a = o := by
  obtain ⟨m, rfl⟩ : ∃ m, n = m + 1 := ⟨n - 1, (Nat.succ_pred_eq_of_pos h).symm⟩
  have harr : ensureReadyArrive sfInit =
      ({ inflight := some 0, nextId := 1, spawns := 1 }, 0) := rfl
  have hmany := ensureReadyArriveMany_pending 0
    { inflight := some 0, nextId := 1, spawns := 1 } rfl m
  constructor
  · simp [ensureReadyArriveMany, harr, hmany]
  · refine ⟨outcome 0, ?_⟩
    intro a ha
    have ha0 : a = 0 := by
      simp [ensureReadyArriveMany, harr, hmany] at ha
      rcases ha with h0 | hmem
      · exact h0
      · exact hmem.2
    simp [ha0]

/-- Witness for C1 at three concurrent callers. -/
theorem ensureReady_single_flight_witness :
    (ensureReadyArriveMany sfInit 3).1.spawns = 1 ∧
    ∃ o : Bool, ∀ a ∈ (ensureReadyArriveMany sfInit 3).2, (fun _ => true) a = o :=
  ensureReady_single_flight 3 (by decide) (fun _ => true)

/-- C2: whenever gateway startup fails, the catch-all handler answers a
structured 503 JSON body with error, details and hint fields, the hint being
chosen by the fixed ordered classification: missing `ANTHROPIC_API_KEY`
first, then an out-of-memory pattern in the error message, then the generic
default. -/
theorem gateway_startup_error_structured (env : GatewayEnv)
    (upgrade : Option String) (msg : Option String) :
    (handleAll env upgrade (.thrown msg) =
      .json503 "Clawdbot gateway failed to start" (msg.getD "Unknown error")
        (classifyHint env (msg.getD "Unknown error"))) ∧
    (tsTruthy env.anthropicApiKey = false →
      classifyHint env (msg.getD "Unknown error") =
        "ANTHROPIC_API_KEY is not set. Run: wrangler secret put ANTHROPIC_API_KEY") ∧
    (tsTruthy env.anthropicApiKey = true →
      (strIncludes (msg.getD "Unknown error") "heap out of memory" ||
        strIncludes (msg.getD "Unknown error") "OOM") = true →
      classifyHint env (msg.getD "Unknown error") =
        "Gateway ran out of memory. Try again or check for memory leaks.") ∧
    (tsTruthy env.anthropicApiKey = true →
      (strIncludes (msg.getD "Unknown error") "heap out of memory" ||
        strIncludes (msg.getD "Unknown error") "OOM") = false →
      classifyHint env (msg.getD "Unknown error") =
        "Check worker logs with: wrangler tail") := by
  refine ⟨rfl, ?_, ?_, ?_⟩
  · intro hk
    simp [classifyHint, hk]
  · intro hk hp
    simp [classifyHint, hk, hp]
  · intro hk hp
    simp [classifyHint, hk, hp]

/-- Witness for C2: the three hint classifications at concrete inputs. -/
theorem gateway_startup_error_structured_witness :
    classifyHint ⟨none⟩ "boom" =
      "ANTHROPIC_API_KEY is not set. Run: wrangler secret put ANTHROPIC_API_KEY" ∧
    classifyHint ⟨some "sk-key"⟩ "JS heap out of memory" =
      "Gateway ran out of memory. Try again or check for memory leaks." ∧
    classifyHint ⟨some "sk-key"⟩ "boom" = "Check worker logs with: wrangler tail" :=
  ⟨(gateway_startup_error_structured ⟨none⟩ none (some "boom")).2.1 (by decide),
   (gateway_startup_error_structured ⟨some "sk-key"⟩ none
      (some "JS heap out of memory")).2.2.1 (by decide) (by decide),
   (gateway_startup_error_structured ⟨some "sk-key"⟩ none
      (some "boom")).2.2.2 (by decide) (by decide)⟩

/-- C3: the scheduled backup handler skips without mounting or syncing when
any R2 credential is missing, and in all worlds resolves normally (the
periodic trigger never observes a rejection). -/
theorem scheduled_swallows_failures (env : R2Env) (w : CronWorld) :
    (credsPresent env = false →
      scheduledRun env w = Except.ok ([], CronOutcome.skippedNoCreds)) ∧
    (scheduledRun env w).isOk = true := by
  constructor
  · intro h
    simp [scheduledRun, h]
  · unfold scheduledRun
    split
    · rfl
    · split
      · rfl
      · split <;> rfl

/-- Witness for C3: missing access key, failing sandbox operations. -/
theorem scheduled_swallows_failures_witness :
    scheduledRun ⟨none, some "secret", some "acct"⟩ ⟨true, .error "x", .error "y"⟩ =
      Except.ok ([], CronOutcome.skippedNoCreds) :=
  (scheduled_swallows_failures ⟨none, some "secret", some "acct"⟩
    ⟨true, .error "x", .error "y"⟩).1 (by decide)

/-- C4: both handlers issue the same single mirror command: an rsync with
delete semantics from `/root/.clawdbot/` to the mount path, excluding lock,
log and tmp files, chained by `&&` to writing the ISO-8601 timestamp marker
`.last-sync`, which therefore gets written exactly when the mirror command
itself exited 0. -/
theorem sync_command_mirror_and_marker (mountPath : String) (rsyncExit : Int) :
    syncCmdIndex mountPath = syncCmdApp mountPath ∧
    syncCmdIndex mountPath = renderSh (syncCmdAst mountPath) ∧
    syncCmdAst mountPath =
      .andThen
        (.rsyncCmd true true ["*.lock", "*.log", "*.tmp"] "/root/.clawdbot/"
          (mountPath ++ "/"))
        (.writeIsoTimestamp (mountPath ++ "/.last-sync")) ∧
    (runSh rsyncExit (syncCmdAst mountPath) ⟨false, []⟩).1.markerWrites =
      (if rsyncExit = 0 then [mountPath ++ "/.last-sync"] else []) ∧
    (runSh rsyncExit (syncCmdAst mountPath) ⟨false, []⟩).1.mirrorRan = true := by
  refine ⟨rfl, ?_, rfl, ?_, ?_⟩
  · simp [syncCmdIndex, renderSh, syncCmdAst, String.join, String.append_assoc]
    rw [strMergeL "/ && " "date -Iseconds > "]
    rfl
  · by_cases he : rsyncExit = 0 <;> simp [runSh, syncCmdAst, he]
  · by_cases he : rsyncExit = 0 <;> simp [runSh, syncCmdAst, he]

/-- C5: the scheduled wait loop sleeps at most 60 times (500 ms each, 30 s),
never killing the sync process; `waitForProcess` sleeps at most
`ceil(timeoutMs / 500)` times and then returns regardless of the process
state. -/
theorem polling_loops_bounded (statusAt : Nat → PStatus) (timeoutMs : Nat)
    (env : R2Env) (w : CronWorld) :
    cronPollCount statusAt ≤ 60 ∧
    waitForProcessCount statusAt timeoutMs ≤ (timeoutMs + 499) / 500 ∧
    CronAct.killProc ∉ cronActsOf (scheduledRun env w) := by
  refine ⟨cronPollAux_le statusAt 60 0, waitForProcessAux_le statusAt _ 0, ?_⟩
  unfold scheduledRun cronTryBody
  split
  · simp [cronActsOf]
  · split
    · simp [cronActsOf]
    · rcases w.startResult with msg | proc
      · simp [cronActsOf]
      · rcases w.logsResult with msg | logs
        · simp [cronActsOf, List.mem_replicate]
        · by_cases hc : (proc.finalStatus == PStatus.completed || proc.exitCode == some 0) = true <;>
            simp [cronActsOf, List.mem_replicate, hc]

/-- C6: after readiness is ensured, a request is relayed as a WebSocket
connection into the container on the fixed gateway port exactly when its
lowercased Upgrade header equals `websocket`, and otherwise forwarded as a
plain HTTP request to the same fixed port. -/
theorem proxy_dispatch_upgrade (env : GatewayEnv) (upgrade : Option String) :
    (handleAll env upgrade .ok = .wsConnect CLAWDBOT_PORT ↔
      upgrade.map jsToLower = some "websocket") ∧
    (handleAll env upgrade .ok = .containerFetch CLAWDBOT_PORT ↔
      ¬ upgrade.map jsToLower = some "websocket") := by
  by_cases h : upgrade.map jsToLower = some "websocket" <;>
    simp [handleAll, h]

/-- Witness for C6: a WebSocket upgrade and a plain request. -/
theorem proxy_dispatch_upgrade_witness :
    handleAll ⟨some "key"⟩ (some "WebSocket") .ok = .wsConnect CLAWDBOT_PORT ∧
    handleAll ⟨some "key"⟩ none .ok = .containerFetch CLAWDBOT_PORT :=
  ⟨(proxy_dispatch_upgrade ⟨some "key"⟩ (some "WebSocket")).1.mpr (by decide),
   (proxy_dispatch_upgrade ⟨some "key"⟩ none).2.mpr (by decide)⟩

/-- C7: when a gateway process exists, the restart endpoint attempts to kill
it (proceeding even if the kill rejects), waits the fixed 2000 ms grace
period, starts the new gateway in the background, and answers success with
the prior process id and the starting message, independently of the new
instance's eventual readiness. -/
theorem gateway_restart_behavior (p : ProcHandle) (kr : Except String Unit)
    (boot : EnsureOutcome) :
    (gatewayRestart ⟨some p, kr⟩ boot).2 =
      { success := true
        message := "Gateway process killed, new instance starting..."
        previousProcessId := some p.id } ∧
    (gatewayRestart ⟨some p, kr⟩ boot).1 =
      RestartAct.findProc :: RestartAct.killAttempt p.id ::
        ((match kr with
          | .ok _ => ([] : List RestartAct)
          | .error msg => [RestartAct.logKillError msg]) ++
          [RestartAct.sleepMs 2000, RestartAct.startGatewayBackground]) ∧
    (∀ boot2, gatewayRestart ⟨some p, kr⟩ boot2 = gatewayRestart ⟨some p, kr⟩ boot) := by
  rcases kr with msg | u <;> simp [gatewayRestart]

/-- C8: the storage status query reports configured only when all three R2
credentials are present, names each missing field, yields the trimmed marker
timestamp only when configured and readable (null when absent, empty or on
any error), and never raises. -/
theorem storage_status_reporting (env : R2Env) (w : StorageWorld) :
    ((storageStatus env w).configured = true ↔
      (tsTruthy env.r2AccessKeyId = true ∧ tsTruthy env.r2SecretAccessKey = true ∧
        tsTruthy env.cfAccountId = true)) ∧
    (∀ name, name ∈ ((storageStatus env w).missing).getD [] ↔
      ((name = "R2_ACCESS_KEY_ID" ∧ tsTruthy env.r2AccessKeyId = false) ∨
       (name = "R2_SECRET_ACCESS_KEY" ∧ tsTruthy env.r2SecretAccessKey = false) ∨
       (name = "CF_ACCOUNT_ID" ∧ tsTruthy env.cfAccountId = false))) ∧
    ((storageStatus env w).configured = true → (storageStatus env w).missing = none) ∧
    (∀ e, w.catResult = .error e → (storageStatus env w).lastSync = none) ∧
    (credsPresent env = false → (storageStatus env w).lastSync = none) ∧
    (∀ s, w.catResult = .ok (some s) → s.trim ≠ "" → credsPresent env = true →
      (storageStatus env w).lastSync = some s.trim) ∧
    (w.catResult = .ok none → (storageStatus env w).lastSync = none) := by
  refine ⟨?_, ?_, ?_, ?_, ?_, ?_, ?_⟩
  · simp [storageStatus, credsPresent, Bool.and_eq_true, and_assoc]
  · intro name
    cases h1 : tsTruthy env.r2AccessKeyId <;>
      cases h2 : tsTruthy env.r2SecretAccessKey <;>
        cases h3 : tsTruthy env.cfAccountId <;>
          simp [storageStatus, missingCreds, h1, h2, h3]
  · intro h
    have h' : credsPresent env = true := h
    simp only [credsPresent, Bool.and_eq_true] at h'
    obtain ⟨⟨ha, hb⟩, hc⟩ := h'
    simp [storageStatus, missingCreds, ha, hb, hc]
  · intro e he
    simp [storageStatus, he, ite_self]
  · intro h
    simp [storageStatus, h]
  · intro s hcat hne hcr
    simp [storageStatus, hcr, hcat, hne]
  · intro h
    simp [storageStatus, h, ite_self]

/-- Witness for C8: a missing secret key and a failing marker read. -/
theorem storage_status_reporting_witness :
    (storageStatus ⟨some "k", none, some "c"⟩ ⟨true, Except.error "boom"⟩).lastSync = none :=
  (storage_status_reporting ⟨some "k", none, some "c"⟩
    ⟨true, Except.error "boom"⟩).2.2.2.1 "boom" rfl

/-- C9: `mountR2Storage` called twice in a row with valid (working)
credentials issues the mount command at most once; when the path already
behaves as mounted it issues none and returns true both times, and the
second call always returns true without re-issuing the command. -/
theorem mountR2Storage_idempotent (env : R2Env) (w : MountWorld) (st : MountState)
    (hcreds : credsPresent env = true) (hok : w.cmdSucceeds = true) :
    (mountR2StorageTwice env w st).2.2 ≤ 1 ∧
    (mountR2StorageTwice env w st).1 = true ∧
    (mountR2StorageTwice env w st).2.1 = true ∧
    (st.mounted = true → (mountR2StorageTwice env w st).2.2 = 0) := by
  rcases st with ⟨m⟩
  cases m <;> simp [mountR2StorageTwice, mountR2Storage, hcreds, hok]

/-- Witness for C9: present working credentials, initially unmounted. -/
theorem mountR2Storage_idempotent_witness :
    (mountR2StorageTwice ⟨some "a", some "b", some "c"⟩ ⟨true⟩ ⟨false⟩).2.2 ≤ 1 ∧
    (mountR2StorageTwice ⟨some "a", some "b", some "c"⟩ ⟨true⟩ ⟨false⟩).1 = true ∧
    (mountR2StorageTwice ⟨some "a", some "b", some "c"⟩ ⟨true⟩ ⟨false⟩).2.1 = true ∧
    ((⟨false⟩ : MountState).mounted = true →
      (mountR2StorageTwice ⟨some "a", some "b", some "c"⟩ ⟨true⟩ ⟨false⟩).2.2 = 0) :=
  mountR2Storage_idempotent ⟨some "a", some "b", some "c"⟩ ⟨true⟩ ⟨false⟩
    (by decide) (by decide)

/-- C10: the manual sync endpoint reports storage failures to its caller:
400 when a credential is missing, 500 when the mount returns false or the
sync process ends neither completed nor with exit code 0, and on success 200
with the timestamp just written (falling back to the current time when the
read yields nothing). -/
theorem manual_sync_error_reporting (env : R2Env) (w : ManualSyncWorld) :
    (credsPresent env = false →
      storageSyncPost env w = .notConfigured ∧
      syncRespStatus (storageSyncPost env w) = 400) ∧
    (credsPresent env = true → w.mountResult = .ok false →
      storageSyncPost env w = .mountFailed ∧
      syncRespStatus (storageSyncPost env w) = 500) ∧
    (∀ proc logs, credsPresent env = true → w.mountResult = .ok true →
      w.startResult = .ok proc → w.logsResult = .ok logs →
      proc.finalStatus ≠ .completed → proc.exitCode ≠ some 0 →
      storageSyncPost env w =
        .syncFailed (if logs.stderr == "" then logs.stdout else logs.stderr) ∧
      syncRespStatus (storageSyncPost env w) = 500) ∧
    (∀ proc logs ts, credsPresent env = true → w.mountResult = .ok true →
      w.startResult = .ok proc → w.logsResult = .ok logs →
      (proc.finalStatus = .completed ∨ proc.exitCode = some 0) →
      w.tsReadResult = .ok ts →
      storageSyncPost env w =
        .syncOk (match ts with
          | none => w.now
          | some s => if s.trim == "" then w.now else s.trim) ∧
      syncRespStatus (storageSyncPost env w) = 200) := by
  refine ⟨?_, ?_, ?_, ?_⟩
  · intro h
    simp [storageSyncPost, syncRespStatus, h]
  · intro hcr hm
    simp [storageSyncPost, syncRespStatus, hcr, hm]
  · intro proc logs hcr hm hs hl hf he
    simp [storageSyncPost, syncRespStatus, hcr, hm, hs, hl, hf, he]
  · intro proc logs ts hcr hm hs hl hor ht
    rcases hor with hor | hor <;>
      simp [storageSyncPost, syncRespStatus, hcr, hm, hs, hl, hor, ht]

/-- Witness for C10: no credentials configured. -/
theorem manual_sync_error_reporting_witness :
    storageSyncPost ⟨none, none, none⟩
        ⟨Except.ok true, Except.error "x", Except.error "y", Except.ok none, "t"⟩ =
      .notConfigured ∧
    syncRespStatus (storageSyncPost ⟨none, none, none⟩
        ⟨Except.ok true, Except.error "x", Except.error "y", Except.ok none, "t"⟩) = 400 :=
  (manual_sync_error_reporting ⟨none, none, none⟩
    ⟨Except.ok true, Except.error "x", Except.error "y", Except.ok none, "t"⟩).1 (by decide)

end Moltworker
